import Mathlib

/-!
Verification development for the parameter state-reconciliation engine of
plugins/modules/postgresql_set.py.

The Python module is shallowly embedded as pure Lean functions:

* Python machine values that flow through the module are modelled explicitly:
  a value that is either an int or a str is `PyScalar`; the result of
  `pretty_to_bytes` is `CanonVal` (Python None, str, int, or float, the last
  modelled as an exact rational).  Python `==` across these types is the
  decidable equality of the model (an int never equals a str, `None` only
  equals `None`, and int/float compare numerically).
* `int(...)` and `float(...)` literal parsing is modelled by `pyIntParse` and
  `pyFloatParse` (sign, digit runs with single underscores between digits,
  optional fraction and exponent, surrounding whitespace).  A parse failure
  is `Option.none` and corresponds to an uncaught Python ValueError.
* The database engine is a passive `World` record supplying the server
  version, the pg_settings catalog row and SHOW token for the initial fetch,
  and a second row and token for the post-apply re-read.  Engine commands
  issued by the module are collected in a `List Cmd` trace; commands are
  assumed to succeed (a failing command aborts the run in the original and no
  claim depends on that path).
* `main` is embedded as `mainRun : Params → World → Outcome × List Cmd`,
  following the control flow of the source line by line.  `fail_json` calls
  are abstracted to the structured `ModuleError` kind they report;
  `exit_json` is modelled faithfully, including the Ansible default
  `changed=false` when the kw dictionary carries no `changed` key.

ASCII note: the Python string predicates isdigit/isalpha/upper/lower are
unicode-aware; the model uses the ASCII versions, which agree on every value
the module manipulates (parameter values and pg_settings tokens).
-/

namespace PGSet

/-- Decidable equality for `Except`, used to evaluate the embedding on
concrete inputs. -/
instance instDecEqExcept {ε α : Type} [DecidableEq ε] [DecidableEq α] :
    DecidableEq (Except ε α) := fun x y =>
  match x, y with
  | Except.ok a, Except.ok b =>
    if h : a = b then isTrue (by rw [h]) else isFalse (by simp [h])
  | Except.error a, Except.error b =>
    if h : a = b then isTrue (by rw [h]) else isFalse (by simp [h])
  | Except.ok _, Except.error _ => isFalse (by simp)
  | Except.error _, Except.ok _ => isFalse (by simp)

/-- Python scalar values flowing out of param_get: the raw catalog string, or
an int after unit scaling.  Derived equality is Python equality here: an int
is never `==` to a str. -/
inductive PyScalar where
  | int (n : Int)
  | str (s : String)
deriving DecidableEq, Repr

/-- Values produced by pretty_to_bytes (and by applying it to an absent
desired value): Python None, a string returned unchanged, an int (byte count
or plain integer), or a float modelled as an exact rational. -/
inductive CanonVal where
  | none
  | str (s : String)
  | int (n : Int)
  | rat (q : ℚ)
deriving DecidableEq, Repr

/-- Python `==` over `CanonVal`: None equals only None, strings compare as
strings, numbers compare numerically across int/float. -/
def pyEqCanon : CanonVal → CanonVal → Bool
  | CanonVal.none, CanonVal.none => true
  | CanonVal.str a, CanonVal.str b => a == b
  | CanonVal.int a, CanonVal.int b => a == b
  | CanonVal.rat a, CanonVal.rat b => a == b
  | CanonVal.int a, CanonVal.rat b => (a : ℚ) == b
  | CanonVal.rat a, CanonVal.int b => a == (b : ℚ)
  | _, _ => false

/-- Numeric value of a digit run (callers pass digit-only lists). -/
def digitSeqVal (cs : List Char) : Nat :=
  cs.foldl (fun a c => a * 10 + (c.toNat - 48)) 0

/-- Validity of a Python digit run with single underscores strictly between
digits, as accepted inside int() and float() literals. -/
def isValidUnderscoreDigits (cs : List Char) : Bool :=
  (!cs.isEmpty)
  && (match cs.head? with | some c => c.isDigit | _ => false)
  && (match cs.getLast? with | some c => c.isDigit | _ => false)
  && cs.all (fun c => c.isDigit || c == '_')
  && ((cs.zip cs.tail).all (fun p => !(p.1 == '_' && p.2 == '_')))

/-- Digit-run value ignoring underscores. -/
def uDigitsVal (cs : List Char) : Nat :=
  digitSeqVal (cs.filter (fun c => c != '_'))

/-- ASCII whitespace, as stripped by the Python numeric constructors. -/
def isPySpace (c : Char) : Bool :=
  c == ' ' || c == '\t' || c == '\n' || c == '\r' || c == '\x0b' || c == '\x0c'

/-- Surrounding-whitespace strip performed by int() and float(). -/
def stripWS (s : String) : List Char :=
  ((s.toList.dropWhile isPySpace).reverse.dropWhile isPySpace).reverse

/-- Python int(s) on a string literal: optional surrounding whitespace,
optional sign, underscore digit run.  `Option.none` is a ValueError. -/
def pyIntParse (s : String) : Option Int :=
  let cs := stripWS s
  match cs with
  | '+' :: rest =>
    if isValidUnderscoreDigits rest then some ((uDigitsVal rest : Int)) else Option.none
  | '-' :: rest =>
    if isValidUnderscoreDigits rest then some (-(uDigitsVal rest : Int)) else Option.none
  | _ =>
    if isValidUnderscoreDigits cs then some ((uDigitsVal cs : Int)) else Option.none

/-- Value of a fractional digit run (digits after the dot). -/
def fracVal (fp : List Char) : ℚ :=
  let ds := fp.filter (fun c => c != '_')
  (digitSeqVal ds : ℚ) / (10 : ℚ) ^ ds.length

/-- Mantissa of a Python float literal: digit run, optionally with a dot
before, after or inside it. -/
def parseMantissa (cs : List Char) : Option ℚ :=
  if cs.contains '.' then
    let ip := cs.takeWhile (fun c => c != '.')
    let fp := (cs.dropWhile (fun c => c != '.')).tail
    if fp.contains '.' then Option.none
    else if ip.isEmpty && fp.isEmpty then Option.none
    else if ip.isEmpty then
      if isValidUnderscoreDigits fp then some (fracVal fp) else Option.none
    else if fp.isEmpty then
      if isValidUnderscoreDigits ip then some ((uDigitsVal ip : ℚ)) else Option.none
    else
      if isValidUnderscoreDigits ip && isValidUnderscoreDigits fp then
        some ((uDigitsVal ip : ℚ) + fracVal fp)
      else Option.none
  else
    if isValidUnderscoreDigits cs then some ((uDigitsVal cs : ℚ)) else Option.none

/-- Python float(s) on a string literal: optional whitespace and sign,
mantissa, optional exponent.  The inf/nan spellings are omitted: every call
site first checks that the literal starts with a digit.  `Option.none` is a
ValueError. -/
def pyFloatParse (s : String) : Option ℚ :=
  let cs0 := stripWS s
  let sgn : ℚ := match cs0 with | '-' :: _ => -1 | _ => 1
  let cs : List Char := match cs0 with
    | '+' :: r => r
    | '-' :: r => r
    | _ => cs0
  if cs.any (fun c => c == 'e' || c == 'E') then
    let m := cs.takeWhile (fun c => c != 'e' && c != 'E')
    let rest := (cs.dropWhile (fun c => c != 'e' && c != 'E')).tail
    if rest.any (fun c => c == 'e' || c == 'E') then Option.none
    else
      let esgn : Int := match rest with | '-' :: _ => -1 | _ => 1
      let ed : List Char := match rest with
        | '+' :: r => r
        | '-' :: r => r
        | _ => rest
      match parseMantissa m,
            (if isValidUnderscoreDigits ed then some (uDigitsVal ed) else Option.none) with
      | some q, some e => some (sgn * q * (10 : ℚ) ^ (esgn * (e : Int)))
      | _, _ => Option.none
  else
    (parseMantissa cs).map (fun q => sgn * q)

/-- Last n characters of a string, Python s[-n:]. -/
def strTakeRight (s : String) (n : Nat) : String :=
  String.mk (s.toList.drop (s.toList.length - n))

/-- All but the last n characters, Python s[:-n]. -/
def strDropRight (s : String) (n : Nat) : String :=
  String.mk (s.toList.take (s.toList.length - n))

/-- First character of a nonempty string, Python s[0]. -/
def strFirst (s : String) : Char :=
  s.toList.headD 'A'

/-- Python substring containment, `needle in hay`. -/
def leadsWith : List Char → List Char → Bool
  | [], _ => true
  | _ :: _, [] => false
  | a :: as, b :: bs => a == b && leadsWith as bs

/-- Python `needle in hay` on strings. -/
def pyInStr (needle hay : String) : Bool :=
  (List.range (hay.toList.length + 1)).any (fun i => leadsWith needle.toList (hay.toList.drop i))

/-- Leading digit run of a literal, as extracted by pretty_to_bytes. -/
def leadingNum (s : String) : Int :=
  (digitSeqVal (s.toList.takeWhile Char.isDigit) : Int)

/-- Suffix stage of pretty_to_bytes: val_in_bytes from the ordered
case-sensitive substring checks of the final two characters, then the
trailing-B fallback guarded by the Python falsy test (triggered by both the
None and the 0 value of val_in_bytes). -/
def sizeSuffixBytes (pv : String) (numPart : Int) : Option Int :=
  let vib1 : Option Int :=
    if 2 ≤ pv.toList.length then
      if pyInStr "kB" (strTakeRight pv 2) then some (numPart * 1024)
      else if pyInStr "MB" (strTakeRight pv 2) then some (numPart * 1024 * 1024)
      else if pyInStr "GB" (strTakeRight pv 2) then some (numPart * 1024 * 1024 * 1024)
      else if pyInStr "TB" (strTakeRight pv 2) then some (numPart * 1024 * 1024 * 1024 * 1024)
      else Option.none
    else Option.none
  if (vib1 = Option.none ∨ vib1 = some 0) ∧ pyInStr "B" (strTakeRight pv 1) = true then
    some numPart
  else vib1

/-- Embedding of pretty_to_bytes.  The source returns the argument unchanged
for empty or non-numeric-looking input, an int for recognised size suffixes,
and otherwise falls back to int() then float() parsing; a double parse
failure is an uncaught ValueError, modelled as `Except.error ()`. -/
def prettyToBytes (pv : String) : Except Unit CanonVal :=
  if pv = "" then Except.ok (CanonVal.str pv)
  else if (strFirst pv).isDigit = false then Except.ok (CanonVal.str pv)
  else if (strFirst (strTakeRight pv 1)).isAlpha = false then
    match pyIntParse pv with
    | some n => Except.ok (CanonVal.int n)
    | Option.none =>
      match pyFloatParse pv with
      | some q => Except.ok (CanonVal.rat q)
      | Option.none => Except.error ()
  else
    match sizeSuffixBytes pv (leadingNum pv) with
    | some n => Except.ok (CanonVal.int n)
    | Option.none => Except.ok (CanonVal.str pv)

/-- pretty_to_bytes applied to the optional desired value: Python
`pretty_to_bytes(None)` returns None via the falsy short-circuit. -/
def prettyOpt : Option String → Except Unit CanonVal
  | Option.none => Except.ok CanonVal.none
  | some s => prettyToBytes s

example : prettyToBytes "4MB" = Except.ok (CanonVal.int 4194304) := by decide
example : prettyToBytes "1kB" = Except.ok (CanonVal.int 1024) := by decide
example : prettyToBytes "" = Except.ok (CanonVal.str "") := by decide
example : prettyToBytes "on" = Except.ok (CanonVal.str "on") := by decide
example : prettyToBytes "1GB" = Except.ok (CanonVal.int 1073741824) := by decide
example : prettyToBytes "1024MB" = Except.ok (CanonVal.int 1073741824) := by decide
example : prettyToBytes "1x2" = Except.error () := by decide
example : prettyToBytes "100" = Except.ok (CanonVal.int 100) := by decide
example : prettyToBytes "1B" = Except.ok (CanonVal.int 1) := by decide
example : prettyToBytes "0kB" = Except.ok (CanonVal.int 0) := by decide

/-- Row of the pg_settings catalog as fetched by param_get: setting, unit
(NULL possible), context, boot_val. -/
structure CatalogRow where
  setting : String
  unit : Option String
  context : String
  boot_val : String
deriving DecidableEq, Repr

/-- Dictionary returned by param_get after unit normalization. -/
structure ParamInfo where
  current_val : String
  raw_val : PyScalar
  unit : Option String
  boot_val : PyScalar
  context : String
deriving DecidableEq, Repr

/-- Passive environment for one run: server version, catalog row and SHOW
token for the first fetch, and for the verification re-read. -/
structure World where
  serverVersion : Int
  fetch1 : Option CatalogRow
  show1 : String
  fetch2 : Option CatalogRow
  show2 : String
deriving DecidableEq, Repr

/-- Structured kinds of the fail_json messages issued by main and
param_get. -/
inductive ModuleError where
  | mutuallyExclusive
  | missingInput
  | unknownParameter
  | immutableParameter
deriving DecidableEq, Repr

/-- Content of the returned value dictionary, kw.value. -/
structure RValue where
  value : PyScalar
  unit : Option String
deriving DecidableEq, Repr

/-- Record passed to exit_json.  Keys the source leaves out of kw on some
exits are Options: value_pretty can be Python None (check mode, changed,
absent desired value), the value dictionary and the context key are missing
on some paths.  A missing changed key defaults to false, as exit_json does. -/
structure ResultRecord where
  name : String
  changed : Bool
  restart_required : Bool
  prev_val_pretty : String
  value_pretty : Option String
  value : Option RValue
  context : Option String
deriving DecidableEq, Repr

/-- Terminal state of a run: a normal exit_json, a fail_json with a
structured kind, or an uncaught Python exception. -/
inductive Outcome where
  | exited (r : ResultRecord)
  | failed (e : ModuleError)
  | crashed
deriving DecidableEq, Repr

/-- Engine commands issued during a run, in order. -/
inductive Cmd where
  | connect
  | fetchSettings (name : String)
  | showParam (name : String)
  | alterSystemSet (name : String) (value : String)
  | alterSystemDefault (name : String)
  | reloadConf
deriving DecidableEq, Repr

/-- Module input parameters relevant to the reconciliation core. -/
structure Params where
  name : String
  value : Option String
  reset : Bool
  checkMode : Bool
deriving DecidableEq, Repr

/-- Python str(v) for the scalars the module passes to param_set. -/
def pyStr : PyScalar → String
  | PyScalar.int n => toString n
  | PyScalar.str s => s

/-- ASCII lowercase, Python str.lower on the values in play. -/
def strLower (s : String) : String :=
  String.mk (s.toList.map Char.toLower)

/-- ASCII uppercase, Python str.upper on the values in play. -/
def strUpper (s : String) : String :=
  String.mk (s.toList.map Char.toUpper)

/-- Embedding of param_get: catalog lookup, SHOW read, the True/False to
on/off rewrite of the SHOW token, and normalization of the kB and MB units
with scaling of strictly positive setting and boot values.  A missing row is
the unknown-parameter failure; an unparsable numeric setting under a kB or MB
unit is an uncaught ValueError. -/
def paramGet (rowOpt : Option CatalogRow) (showVal : String) : Except Outcome ParamInfo :=
  match rowOpt with
  | Option.none => Except.error (Outcome.failed ModuleError.unknownParameter)
  | some row =>
    let val := if showVal = "True" then "on" else if showVal = "False" then "off" else showVal
    if row.unit = some "kB" then
      match pyIntParse row.setting, pyIntParse row.boot_val with
      | some rv, some bv =>
        Except.ok {
          current_val := val,
          raw_val := if 0 < rv then PyScalar.int (rv * 1024) else PyScalar.str row.setting,
          unit := some "b",
          boot_val := if 0 < bv then PyScalar.int (bv * 1024) else PyScalar.str row.boot_val,
          context := row.context }
      | _, _ => Except.error Outcome.crashed
    else if row.unit = some "MB" then
      match pyIntParse row.setting, pyIntParse row.boot_val with
      | some rv, some bv =>
        Except.ok {
          current_val := val,
          raw_val :=
            if 0 < rv then PyScalar.int (rv * 1024 * 1024) else PyScalar.str row.setting,
          unit := some "b",
          boot_val :=
            if 0 < bv then PyScalar.int (bv * 1024 * 1024) else PyScalar.str row.boot_val,
          context := row.context }
      | _, _ => Except.error Outcome.crashed
    else
      Except.ok {
        current_val := val,
        raw_val := PyScalar.str row.setting,
        unit := row.unit,
        boot_val := PyScalar.str row.boot_val,
        context := row.context }

/-- Commands issued by param_set: the override write (a DEFAULT form when
str(value).lower() is the token default) followed by a configuration reload
unless the context is postmaster. -/
def paramSetCmds (name : String) (value : PyScalar) (context : String) : List Cmd :=
  let base :=
    if strLower (pyStr value) = "default" then [Cmd.alterSystemDefault name]
    else [Cmd.alterSystemSet name (pyStr value)]
  if context ≠ "postmaster" then base ++ [Cmd.reloadConf] else base

/-- Lowercase size-suffix rewrite applied to a truthy desired value before
validation: an all-digit prefix with a two-letter lowercase suffix mb, gb or
tb, or an all-digit prefix with a trailing lowercase b, is uppercased. -/
def rewriteShorthand (value : String) : String :=
  if value ≠ "" then
    if 2 < value.toList.length ∧ (strDropRight value 2).toList.all Char.isDigit = true
        ∧ strTakeRight value 2 ∈ ["mb", "gb", "tb"] then
      strUpper value
    else if 1 < value.toList.length ∧ pyInStr "b" (strTakeRight value 1) = true
        ∧ (strDropRight value 1).toList.all Char.isDigit = true then
      strUpper value
    else value
  else value

/-- The True to on, False to off rewrite applied to the desired value after
the first fetch. -/
def boolNormValue (value : Option String) : Option String :=
  value.map (fun v => if v = "True" then "on" else if v = "False" then "off" else v)

/-- Verification phase of main: for the five reloadable context classes a
fresh connection re-reads the parameter and the authoritative changed flag is
the inequality of the pre-apply and post-apply raw values; for every other
context the optimistic flag and pretty value stand and no value dictionary is
attached to the result. -/
def mainVerify (name : String) (pre : ParamInfo) (vp : Option String) (changed : Bool)
    (rr : Bool) (w : World) (trace : List Cmd) : Outcome × List Cmd :=
  if pre.context ∈ ["sighup", "superuser-backend", "backend", "superuser", "user"] then
    let trace := trace ++ [Cmd.connect, Cmd.fetchSettings name, Cmd.showParam name]
    match paramGet w.fetch2 w.show2 with
    | Except.error o => (o, trace)
    | Except.ok fin =>
      (Outcome.exited {
          name := name,
          changed := if pre.raw_val = fin.raw_val then false else true,
          restart_required := rr,
          prev_val_pretty := pre.current_val,
          value_pretty := some fin.current_val,
          value := some { value := fin.raw_val, unit := pre.unit },
          context := some pre.context }, trace)
  else
    (Outcome.exited {
        name := name,
        changed := changed,
        restart_required := rr,
        prev_val_pretty := pre.current_val,
        value_pretty := vp,
        value := Option.none,
        context := some pre.context }, trace)

/-- Body of main after the first successful fetch: the boolean rewrite of the
desired value, the internal-context failure, the check-mode comparison and
exit, the apply phase (literal string comparison for a desired value, raw
equality short-circuit for reset) and the verification phase. -/
def mainAfterFetch (name : String) (value0 : Option String) (reset check : Bool)
    (w : World) (info : ParamInfo) (trace : List Cmd) : Outcome × List Cmd :=
  let value := boolNormValue value0
  let rr : Bool := decide (info.context = "postmaster")
  if info.context = "internal" then (Outcome.failed ModuleError.immutableParameter, trace)
  else if check then
    match prettyOpt value, prettyToBytes info.current_val with
    | Except.ok a, Except.ok b =>
      if pyEqCanon a b then
        (Outcome.exited {
            name := name,
            changed := false,
            restart_required := rr,
            prev_val_pretty := info.current_val,
            value_pretty := some info.current_val,
            value := some { value := info.raw_val, unit := info.unit },
            context := some info.context }, trace)
      else
        (Outcome.exited {
            name := name,
            changed := true,
            restart_required := rr,
            prev_val_pretty := info.current_val,
            value_pretty := value,
            value := some { value := info.raw_val, unit := info.unit },
            context := some info.context }, trace)
    | _, _ => (Outcome.crashed, trace)
  else
    if value ≠ Option.none ∧ value ≠ some info.current_val then
      let v := value.getD ""
      let trace := trace ++ paramSetCmds name (PyScalar.str v) info.context
      mainVerify name info (some v) true rr w trace
    else if reset then
      if info.raw_val = info.boot_val then
        (Outcome.exited {
            name := name,
            changed := false,
            restart_required := false,
            prev_val_pretty := info.current_val,
            value_pretty := some info.current_val,
            value := some { value := info.raw_val, unit := info.unit },
            context := some info.context }, trace)
      else
        let trace := trace ++ paramSetCmds name info.boot_val info.context
        mainVerify name info (some info.current_val) true rr w trace
    else
      mainVerify name info (some info.current_val) false rr w trace

/-- Connected part of main: version gate, first fetch, then the body. -/
def mainConnected (name : String) (value : Option String) (reset check : Bool)
    (w : World) : Outcome × List Cmd :=
  let trace := [Cmd.connect]
  if w.serverVersion < 90400 then
    (Outcome.exited {
        name := name,
        changed := false,
        restart_required := false,
        prev_val_pretty := "",
        value_pretty := some "",
        value := some { value := PyScalar.str "", unit := some "" },
        context := Option.none }, trace)
  else
    let trace := trace ++ [Cmd.fetchSettings name, Cmd.showParam name]
    match paramGet w.fetch1 w.show1 with
    | Except.error o => (o, trace)
    | Except.ok info => mainAfterFetch name value reset check w info trace

/-- Embedding of main: shorthand rewrite of a truthy desired value, the two
input-validation failures (before any engine interaction), then the connected
body. -/
def mainRun (p : Params) (w : World) : Outcome × List Cmd :=
  let value := p.value.map rewriteShorthand
  if value.isSome = true ∧ p.reset = true then
    (Outcome.failed ModuleError.mutuallyExclusive, [])
  else if value = Option.none ∧ p.reset = false then
    (Outcome.failed ModuleError.missingInput, [])
  else mainConnected p.name value p.reset p.checkMode w

/-- Reduction of mainRun past the two input-validation checks. -/
theorem mainRun_eq_connected (p : Params) (w : World)
    (h1 : ¬(p.value.isSome = true ∧ p.reset = true))
    (h2 : ¬(p.value = Option.none ∧ p.reset = false)) :
    mainRun p w = mainConnected p.name (p.value.map rewriteShorthand) p.reset p.checkMode w := by
  cases hv : p.value with
  | none =>
    have hr : p.reset = true := by
      rcases Bool.eq_false_or_eq_true p.reset with h | h
      · exact h
      · exact absurd ⟨hv, h⟩ h2
    simp [mainRun, hv, hr]
  | some v =>
    have hr : p.reset = false := by
      rcases Bool.eq_false_or_eq_true p.reset with h | h
      · exact absurd ⟨by simp [hv], h⟩ h1
      · exact h
    simp [mainRun, hv, hr]

/-- Reduction of mainConnected past the version gate and the first fetch. -/
theorem mainConnected_eq_afterFetch (name : String) (value : Option String)
    (reset check : Bool) (w : World) (info : ParamInfo)
    (hver : ¬ w.serverVersion < 90400)
    (hget : paramGet w.fetch1 w.show1 = Except.ok info) :
    mainConnected name value reset check w =
      mainAfterFetch name value reset check w info
        [Cmd.connect, Cmd.fetchSettings name, Cmd.showParam name] := by
  simp [mainConnected, hget, hver]

/-- pretty_to_bytes never returns Python None on a string argument. -/
theorem prettyToBytes_ne_none (s : String) (b : CanonVal)
    (h : prettyToBytes s = Except.ok b) : b ≠ CanonVal.none := by
  unfold prettyToBytes at h
  split at h
  · cases h; simp
  · split at h
    · cases h; simp
    · split at h
      · split at h
        · cases h; simp
        · split at h
          · cases h; simp
          · cases h
      · cases hsb : sizeSuffixBytes s (leadingNum s) with
        | none => rw [hsb] at h; cases h; simp
        | some n => rw [hsb] at h; cases h; simp

/-- Python None compares unequal to every other canonical value. -/
theorem pyEqCanon_none_left (b : CanonVal) (hb : b ≠ CanonVal.none) :
    pyEqCanon CanonVal.none b = false := by
  cases b with
  | none => exact absurd rfl hb
  | str s => rfl
  | int n => rfl
  | rat q => rfl

/-- param_set never reloads the configuration for a postmaster parameter. -/
theorem reload_notMem_paramSetCmds_postmaster (name : String) (value : PyScalar) :
    Cmd.reloadConf ∉ paramSetCmds name value "postmaster" := by
  unfold paramSetCmds
  split <;> simp

/-- Reduction of the check-mode branch of the body: the predicted changed
flag is the negation of the Python equality of the two canonical values, no
command is appended, and the current raw value is attached to the result. -/
theorem mainAfterFetch_check (name : String) (value0 : Option String) (reset : Bool)
    (w : World) (info : ParamInfo) (trace : List Cmd) (a b : CanonVal)
    (hctx : info.context ≠ "internal")
    (ha : prettyOpt (boolNormValue value0) = Except.ok a)
    (hb : prettyToBytes info.current_val = Except.ok b) :
    mainAfterFetch name value0 reset true w info trace =
      ((if pyEqCanon a b then
          Outcome.exited {
            name := name, changed := false,
            restart_required := decide (info.context = "postmaster"),
            prev_val_pretty := info.current_val,
            value_pretty := some info.current_val,
            value := some { value := info.raw_val, unit := info.unit },
            context := some info.context }
        else
          Outcome.exited {
            name := name, changed := true,
            restart_required := decide (info.context = "postmaster"),
            prev_val_pretty := info.current_val,
            value_pretty := boolNormValue value0,
            value := some { value := info.raw_val, unit := info.unit },
            context := some info.context }), trace) := by
  unfold mainAfterFetch
  rw [if_neg hctx]
  simp only [if_true, ha, hb]
  split <;> rfl

/-- Reduction of the execute branch that applies a desired value differing
from the current token: the param_set commands are appended and control moves
to the verification phase with the optimistic changed flag. -/
theorem mainAfterFetch_value_ne (name v : String) (reset : Bool) (w : World)
    (info : ParamInfo) (trace : List Cmd)
    (hT : v ≠ "True") (hF : v ≠ "False")
    (hctx : info.context ≠ "internal")
    (hne : v ≠ info.current_val) :
    mainAfterFetch name (some v) reset false w info trace =
      mainVerify name info (some v) true (decide (info.context = "postmaster")) w
        (trace ++ paramSetCmds name (PyScalar.str v) info.context) := by
  unfold mainAfterFetch
  rw [if_neg hctx]
  have hbn : boolNormValue (some v) = some v := by simp [boolNormValue, hT, hF]
  simp only [hbn, Bool.false_eq_true, if_false]
  rw [if_pos ⟨by simp, by simp [hne]⟩]
  simp

/-- Reduction of the execute branch with a desired value equal to the current
token and reset unset: no command is issued and control moves to the
verification phase with changed still false. -/
theorem mainAfterFetch_value_eq (name : String) (w : World) (info : ParamInfo)
    (trace : List Cmd)
    (hT : info.current_val ≠ "True") (hF : info.current_val ≠ "False")
    (hctx : info.context ≠ "internal") :
    mainAfterFetch name (some info.current_val) false false w info trace =
      mainVerify name info (some info.current_val) false
        (decide (info.context = "postmaster")) w trace := by
  unfold mainAfterFetch
  rw [if_neg hctx]
  have hbn : boolNormValue (some info.current_val) = some info.current_val := by
    simp [boolNormValue, hT, hF]
  simp [hbn]

/-- Reduction of the reset no-op short-circuit: raw equals boot, the run
exits at once, the changed key is left out of kw (defaulting to false) and
the restart_required key still holds the initial false. -/
theorem mainAfterFetch_reset_noop (name : String) (w : World) (info : ParamInfo)
    (trace : List Cmd)
    (hctx : info.context ≠ "internal")
    (heq : info.raw_val = info.boot_val) :
    mainAfterFetch name Option.none true false w info trace =
      (Outcome.exited {
          name := name, changed := false, restart_required := false,
          prev_val_pretty := info.current_val,
          value_pretty := some info.current_val,
          value := some { value := info.raw_val, unit := info.unit },
          context := some info.context }, trace) := by
  unfold mainAfterFetch
  rw [if_neg hctx]
  simp [boolNormValue, heq]

/-- Reduction of the reset apply branch: raw differs from boot, the boot
value is applied and control moves to the verification phase. -/
theorem mainAfterFetch_reset_apply (name : String) (w : World) (info : ParamInfo)
    (trace : List Cmd)
    (hctx : info.context ≠ "internal")
    (hne : info.raw_val ≠ info.boot_val) :
    mainAfterFetch name Option.none true false w info trace =
      mainVerify name info (some info.current_val) true
        (decide (info.context = "postmaster")) w
        (trace ++ paramSetCmds name info.boot_val info.context) := by
  unfold mainAfterFetch
  rw [if_neg hctx]
  simp [boolNormValue, hne]

/-- Reduction of the verification phase for the five reloadable context
classes: a fresh connection, a re-read, and the authoritative changed flag
from the raw-value comparison. -/
theorem mainVerify_five (name : String) (pre : ParamInfo) (vp : Option String)
    (changed rr : Bool) (w : World) (trace : List Cmd) (fin : ParamInfo)
    (h5 : pre.context ∈ ["sighup", "superuser-backend", "backend", "superuser", "user"])
    (hfin : paramGet w.fetch2 w.show2 = Except.ok fin) :
    mainVerify name pre vp changed rr w trace =
      (Outcome.exited {
          name := name,
          changed := if pre.raw_val = fin.raw_val then false else true,
          restart_required := rr,
          prev_val_pretty := pre.current_val,
          value_pretty := some fin.current_val,
          value := some { value := fin.raw_val, unit := pre.unit },
          context := some pre.context },
       trace ++ [Cmd.connect, Cmd.fetchSettings name, Cmd.showParam name]) := by
  unfold mainVerify
  rw [if_pos h5]
  simp [hfin]

/-- Reduction of the verification phase for every other context class: no
re-read, the optimistic flag stands and no value dictionary is attached. -/
theorem mainVerify_other (name : String) (pre : ParamInfo) (vp : Option String)
    (changed rr : Bool) (w : World) (trace : List Cmd)
    (h5 : pre.context ∉ ["sighup", "superuser-backend", "backend", "superuser", "user"]) :
    mainVerify name pre vp changed rr w trace =
      (Outcome.exited {
          name := name, changed := changed, restart_required := rr,
          prev_val_pretty := pre.current_val, value_pretty := vp,
          value := Option.none, context := some pre.context }, trace) := by
  unfold mainVerify
  rw [if_neg h5]

/-- C7: a run with both a value and reset fails with the mutually-exclusive
error, and a run with neither fails with the missing-input error; in both
cases the command trace is empty, so no connection is opened and no parameter
state is read. -/
theorem C7_input_validation (p : Params) (w : World) :
    (p.value.isSome = true ∧ p.reset = true →
      mainRun p w = (Outcome.failed ModuleError.mutuallyExclusive, [])) ∧
    (p.value = Option.none ∧ p.reset = false →
      mainRun p w = (Outcome.failed ModuleError.missingInput, [])) := by
  constructor
  · rintro ⟨h1, h2⟩
    rcases Option.isSome_iff_exists.mp h1 with ⟨v, hv⟩
    simp [mainRun, hv, h2]
  · rintro ⟨h1, h2⟩
    simp [mainRun, h1, h2]

/-- C7 witness: both failure kinds at concrete inputs, with empty traces. -/
theorem C7_input_validation_witness :
    mainRun { name := "work_mem", value := some "1MB", reset := true, checkMode := false }
        { serverVersion := 90400, fetch1 := Option.none, show1 := "",
          fetch2 := Option.none, show2 := "" } =
      (Outcome.failed ModuleError.mutuallyExclusive, []) ∧
    mainRun { name := "work_mem", value := Option.none, reset := false, checkMode := false }
        { serverVersion := 90400, fetch1 := Option.none, show1 := "",
          fetch2 := Option.none, show2 := "" } =
      (Outcome.failed ModuleError.missingInput, []) := by
  constructor
  · exact (C7_input_validation _ _).1 ⟨by decide, by decide⟩
  · exact (C7_input_validation _ _).2 ⟨by decide, by decide⟩

/-- C6: a run whose fetched context class is internal fails with the
immutable-parameter error in every mode, with a trace holding only the
connection and the two reads, so no mutation was attempted and no result
record is produced. -/
theorem C6_internal_immutable (p : Params) (w : World) (info : ParamInfo)
    (h1 : ¬(p.value.isSome = true ∧ p.reset = true))
    (h2 : ¬(p.value = Option.none ∧ p.reset = false))
    (hver : ¬ w.serverVersion < 90400)
    (hget : paramGet w.fetch1 w.show1 = Except.ok info)
    (hctx : info.context = "internal") :
    mainRun p w =
      (Outcome.failed ModuleError.immutableParameter,
       [Cmd.connect, Cmd.fetchSettings p.name, Cmd.showParam p.name]) := by
  rw [mainRun_eq_connected p w h1 h2,
      mainConnected_eq_afterFetch _ _ _ _ _ _ hver hget]
  simp [mainAfterFetch, hctx]

/-- C6 witness: the internal-context failure at a concrete input, in both
preview and execute mode. -/
theorem C6_internal_immutable_witness :
    mainRun { name := "lc_collate", value := some "C", reset := false, checkMode := false }
        { serverVersion := 90400,
          fetch1 := some { setting := "C", unit := Option.none, context := "internal",
                           boot_val := "C" },
          show1 := "C", fetch2 := Option.none, show2 := "" } =
      (Outcome.failed ModuleError.immutableParameter,
       [Cmd.connect, Cmd.fetchSettings "lc_collate", Cmd.showParam "lc_collate"]) ∧
    mainRun { name := "lc_collate", value := some "C", reset := false, checkMode := true }
        { serverVersion := 90400,
          fetch1 := some { setting := "C", unit := Option.none, context := "internal",
                           boot_val := "C" },
          show1 := "C", fetch2 := Option.none, show2 := "" } =
      (Outcome.failed ModuleError.immutableParameter,
       [Cmd.connect, Cmd.fetchSettings "lc_collate", Cmd.showParam "lc_collate"]) := by
  constructor
  · exact C6_internal_immutable _ _
      { current_val := "C", raw_val := PyScalar.str "C", unit := Option.none,
        boot_val := PyScalar.str "C", context := "internal" }
      (by decide) (by decide) (by decide) (by decide) (by decide)
  · exact C6_internal_immutable _ _
      { current_val := "C", raw_val := PyScalar.str "C", unit := Option.none,
        boot_val := PyScalar.str "C", context := "internal" }
      (by decide) (by decide) (by decide) (by decide) (by decide)

/-- C2: in preview mode, every run that reaches the decision step exits with
a trace holding only the connection and the two reads (no mutation), and the
predicted changed flag is exactly the negation of the canonical-byte equality
of the (normalized) desired value and the current display token.  In
particular a desired 1GB against a current 1024MB compares equal and
predicts changed=false (see the witness). -/
theorem C2_check_mode_canonical (p : Params) (w : World) (info : ParamInfo)
    (a b : CanonVal)
    (hchk : p.checkMode = true)
    (h1 : ¬(p.value.isSome = true ∧ p.reset = true))
    (h2 : ¬(p.value = Option.none ∧ p.reset = false))
    (hver : ¬ w.serverVersion < 90400)
    (hget : paramGet w.fetch1 w.show1 = Except.ok info)
    (hctx : info.context ≠ "internal")
    (ha : prettyOpt (boolNormValue (p.value.map rewriteShorthand)) = Except.ok a)
    (hb : prettyToBytes info.current_val = Except.ok b) :
    ∃ r : ResultRecord,
      mainRun p w =
        (Outcome.exited r,
         [Cmd.connect, Cmd.fetchSettings p.name, Cmd.showParam p.name]) ∧
      r.changed = ! pyEqCanon a b := by
  rw [mainRun_eq_connected p w h1 h2,
      mainConnected_eq_afterFetch _ _ _ _ _ _ hver hget, hchk,
      mainAfterFetch_check _ _ _ _ _ _ a b hctx ha hb]
  cases hpq : pyEqCanon a b
  · simp only [hpq, Bool.false_eq_true, if_false]
    exact ⟨_, rfl, rfl⟩
  · simp only [hpq, if_true]
    exact ⟨_, rfl, rfl⟩

/-- C2 witness: preview run with desired 1GB against current 1024MB, both
canonicalizing to 1073741824 bytes, hence a predicted changed flag equal to
the negated equality, which is false. -/
theorem C2_check_mode_canonical_witness :
    ∃ r : ResultRecord,
      mainRun { name := "work_mem", value := some "1GB", reset := false, checkMode := true }
          { serverVersion := 90400,
            fetch1 := some { setting := "1048576", unit := some "kB", context := "user",
                             boot_val := "4096" },
            show1 := "1024MB", fetch2 := Option.none, show2 := "" } =
        (Outcome.exited r,
         [Cmd.connect, Cmd.fetchSettings "work_mem", Cmd.showParam "work_mem"]) ∧
      r.changed = ! pyEqCanon (CanonVal.int 1073741824) (CanonVal.int 1073741824) :=
  C2_check_mode_canonical _ _
    { current_val := "1024MB", raw_val := PyScalar.int 1073741824, unit := some "b",
      boot_val := PyScalar.int 4194304, context := "user" }
    (CanonVal.int 1073741824) (CanonVal.int 1073741824)
    (by decide) (by decide) (by decide) (by decide) (by decide) (by decide)
    (by decide) (by decide)

/-- C1 counterexample: in execute mode, with a desired value 1GB that is
textually different from the current token 1024MB but equal in canonical
bytes, under the reloadable user context and an unchanged underlying value,
the apply command is issued but the final result reports changed=false: the
verification re-read overrides the apply-time optimistic flag, so the claim
that every such run reports changed=true is false. -/
theorem C1_counterexample :
    prettyToBytes "1GB" = prettyToBytes "1024MB" ∧ "1GB" ≠ "1024MB" ∧
    mainRun { name := "work_mem", value := some "1GB", reset := false, checkMode := false }
        { serverVersion := 90400,
          fetch1 := some { setting := "1048576", unit := some "kB", context := "user",
                           boot_val := "4096" },
          show1 := "1024MB",
          fetch2 := some { setting := "1048576", unit := some "kB", context := "user",
                           boot_val := "4096" },
          show2 := "1024MB" } =
      (Outcome.exited {
          name := "work_mem",
          changed := false,
          restart_required := false,
          prev_val_pretty := "1024MB",
          value_pretty := some "1024MB",
          value := some { value := PyScalar.int 1073741824, unit := some "b" },
          context := some "user" },
       [Cmd.connect, Cmd.fetchSettings "work_mem", Cmd.showParam "work_mem",
        Cmd.alterSystemSet "work_mem" "1GB", Cmd.reloadConf,
        Cmd.connect, Cmd.fetchSettings "work_mem", Cmd.showParam "work_mem"]) := by
  refine ⟨by decide, by decide, by decide⟩

/-- C3 counterexample: in execute mode with a desired value equal to the
current token, no apply command is issued, yet the verification re-read is
still performed (second connect and fetch in the trace), so the claim that
the re-read happens only after a successful apply is false. -/
theorem C3_counterexample :
    mainRun { name := "synchronous_commit", value := some "on", reset := false,
              checkMode := false }
        { serverVersion := 90400,
          fetch1 := some { setting := "on", unit := Option.none, context := "user",
                           boot_val := "on" },
          show1 := "on",
          fetch2 := some { setting := "on", unit := Option.none, context := "user",
                           boot_val := "on" },
          show2 := "on" } =
      (Outcome.exited {
          name := "synchronous_commit",
          changed := false,
          restart_required := false,
          prev_val_pretty := "on",
          value_pretty := some "on",
          value := some { value := PyScalar.str "on", unit := Option.none },
          context := some "user" },
       [Cmd.connect, Cmd.fetchSettings "synchronous_commit", Cmd.showParam "synchronous_commit",
        Cmd.connect, Cmd.fetchSettings "synchronous_commit",
        Cmd.showParam "synchronous_commit"]) := by
  decide

/-- C4 counterexample: a reset run on a postmaster parameter whose raw value
already equals the boot value short-circuits and returns
restart_required=false, although the postmaster context class was observed,
so the claim that restartRequired is true on every exit path after the class
is observed is false. -/
theorem C4_counterexample :
    mainRun { name := "shared_buffers", value := Option.none, reset := true,
              checkMode := false }
        { serverVersion := 90400,
          fetch1 := some { setting := "16384", unit := Option.none, context := "postmaster",
                           boot_val := "16384" },
          show1 := "128MB", fetch2 := Option.none, show2 := "" } =
      (Outcome.exited {
          name := "shared_buffers",
          changed := false,
          restart_required := false,
          prev_val_pretty := "128MB",
          value_pretty := some "128MB",
          value := some { value := PyScalar.str "16384", unit := Option.none },
          context := some "postmaster" },
       [Cmd.connect, Cmd.fetchSettings "shared_buffers", Cmd.showParam "shared_buffers"]) := by
  decide

/-- C5 counterexample: a reset run whose raw value equals the boot value
reports changed=false in execute mode, but the same run in preview mode
compares the absent desired value against the current token and predicts
changed=true, so the claim that the decision is the same in both modes is
false. -/
theorem C5_counterexample :
    mainRun { name := "wal_level", value := Option.none, reset := true, checkMode := true }
        { serverVersion := 90400,
          fetch1 := some { setting := "100", unit := Option.none, context := "user",
                           boot_val := "100" },
          show1 := "100", fetch2 := Option.none, show2 := "" } =
      (Outcome.exited {
          name := "wal_level",
          changed := true,
          restart_required := false,
          prev_val_pretty := "100",
          value_pretty := Option.none,
          value := some { value := PyScalar.str "100", unit := Option.none },
          context := some "user" },
       [Cmd.connect, Cmd.fetchSettings "wal_level", Cmd.showParam "wal_level"]) ∧
    mainRun { name := "wal_level", value := Option.none, reset := true, checkMode := false }
        { serverVersion := 90400,
          fetch1 := some { setting := "100", unit := Option.none, context := "user",
                           boot_val := "100" },
          show1 := "100", fetch2 := Option.none, show2 := "" } =
      (Outcome.exited {
          name := "wal_level",
          changed := false,
          restart_required := false,
          prev_val_pretty := "100",
          value_pretty := some "100",
          value := some { value := PyScalar.str "100", unit := Option.none },
          context := some "user" },
       [Cmd.connect, Cmd.fetchSettings "wal_level", Cmd.showParam "wal_level"]) := by
  refine ⟨by decide, by decide⟩

/-- C5 amended: in execute mode a reset run with raw equal to boot
short-circuits with changed=false and no apply command; in preview mode the
same run issues no apply command either, but the prediction compares the
absent desired value against the current token and reports changed=true, so
the two modes disagree. -/
theorem C5_amended (name : String) (w : World) (info : ParamInfo) (b : CanonVal)
    (hver : ¬ w.serverVersion < 90400)
    (hget : paramGet w.fetch1 w.show1 = Except.ok info)
    (hctx : info.context ≠ "internal")
    (heq : info.raw_val = info.boot_val)
    (hb : prettyToBytes info.current_val = Except.ok b) :
    mainRun { name := name, value := Option.none, reset := true, checkMode := false } w =
      (Outcome.exited {
          name := name, changed := false, restart_required := false,
          prev_val_pretty := info.current_val,
          value_pretty := some info.current_val,
          value := some { value := info.raw_val, unit := info.unit },
          context := some info.context },
       [Cmd.connect, Cmd.fetchSettings name, Cmd.showParam name]) ∧
    (∃ r : ResultRecord,
      mainRun { name := name, value := Option.none, reset := true, checkMode := true } w =
        (Outcome.exited r,
         [Cmd.connect, Cmd.fetchSettings name, Cmd.showParam name]) ∧
      r.changed = true) := by
  have hbn : b ≠ CanonVal.none := prettyToBytes_ne_none _ _ hb
  constructor
  · rw [mainRun_eq_connected _ _ (by simp) (by simp)]
    simp only [Option.map_none']
    rw [mainConnected_eq_afterFetch _ _ _ _ _ _ hver hget,
        mainAfterFetch_reset_noop _ _ _ _ hctx heq]
  · rw [mainRun_eq_connected _ _ (by simp) (by simp)]
    simp only [Option.map_none']
    rw [mainConnected_eq_afterFetch _ _ _ _ _ _ hver hget,
        mainAfterFetch_check _ _ _ _ _ _ CanonVal.none b hctx (by rfl) hb]
    rw [if_neg (by simp [pyEqCanon_none_left b hbn])]
    exact ⟨_, rfl, rfl⟩

/-- C5 amended witness: a concrete reset run with raw equal to boot, showing
changed=false without apply in execute mode and changed=true without apply in
preview mode. -/
theorem C5_amended_witness :
    mainRun { name := "wal_buffers", value := Option.none, reset := true, checkMode := false }
        { serverVersion := 90400,
          fetch1 := some { setting := "100", unit := Option.none, context := "user",
                           boot_val := "100" },
          show1 := "100", fetch2 := Option.none, show2 := "" } =
      (Outcome.exited {
          name := "wal_buffers", changed := false, restart_required := false,
          prev_val_pretty := "100", value_pretty := some "100",
          value := some { value := PyScalar.str "100", unit := Option.none },
          context := some "user" },
       [Cmd.connect, Cmd.fetchSettings "wal_buffers", Cmd.showParam "wal_buffers"]) ∧
    (∃ r : ResultRecord,
      mainRun { name := "wal_buffers", value := Option.none, reset := true, checkMode := true }
          { serverVersion := 90400,
            fetch1 := some { setting := "100", unit := Option.none, context := "user",
                             boot_val := "100" },
            show1 := "100", fetch2 := Option.none, show2 := "" } =
        (Outcome.exited r,
         [Cmd.connect, Cmd.fetchSettings "wal_buffers", Cmd.showParam "wal_buffers"]) ∧
      r.changed = true) :=
  C5_amended "wal_buffers" _
    { current_val := "100", raw_val := PyScalar.str "100", unit := Option.none,
      boot_val := PyScalar.str "100", context := "user" }
    (CanonVal.int 100) (by decide) (by decide) (by decide) (by decide) (by decide)

/-- C4 amended: for a postmaster parameter the reload command is never issued
and the result reports restart_required=true on the check-mode exit and on
the normal execute exit with an apply; the reset no-op short-circuit, however,
returns restart_required=false even though the postmaster class was
observed. -/
theorem C4_amended (name v : String) (w : World) (info : ParamInfo)
    (hver : ¬ w.serverVersion < 90400)
    (hget : paramGet w.fetch1 w.show1 = Except.ok info)
    (hpm : info.context = "postmaster")
    (hrw : rewriteShorthand v = v) (hT : v ≠ "True") (hF : v ≠ "False") :
    (∀ a b : CanonVal, prettyOpt (boolNormValue (some v)) = Except.ok a →
      prettyToBytes info.current_val = Except.ok b →
      ∃ r : ResultRecord,
        mainRun { name := name, value := some v, reset := false, checkMode := true } w =
          (Outcome.exited r,
           [Cmd.connect, Cmd.fetchSettings name, Cmd.showParam name]) ∧
        r.restart_required = true) ∧
    (v ≠ info.current_val →
      mainRun { name := name, value := some v, reset := false, checkMode := false } w =
        (Outcome.exited {
            name := name, changed := true, restart_required := true,
            prev_val_pretty := info.current_val, value_pretty := some v,
            value := Option.none, context := some "postmaster" },
         [Cmd.connect, Cmd.fetchSettings name, Cmd.showParam name] ++
           paramSetCmds name (PyScalar.str v) info.context) ∧
      Cmd.reloadConf ∉ paramSetCmds name (PyScalar.str v) "postmaster") ∧
    (info.raw_val = info.boot_val →
      mainRun { name := name, value := Option.none, reset := true, checkMode := false } w =
        (Outcome.exited {
            name := name, changed := false, restart_required := false,
            prev_val_pretty := info.current_val,
            value_pretty := some info.current_val,
            value := some { value := info.raw_val, unit := info.unit },
            context := some "postmaster" },
         [Cmd.connect, Cmd.fetchSettings name, Cmd.showParam name])) := by
  have hctx : info.context ≠ "internal" := by rw [hpm]; decide
  have hrr : decide (info.context = "postmaster") = true := by rw [hpm]; decide
  have h5 : info.context ∉ ["sighup", "superuser-backend", "backend", "superuser", "user"] := by
    rw [hpm]; decide
  refine ⟨?_, ?_, ?_⟩
  · intro a b ha hb
    rw [mainRun_eq_connected _ _ (by simp) (by simp)]
    simp only [Option.map_some', hrw]
    rw [mainConnected_eq_afterFetch _ _ _ _ _ _ hver hget,
        mainAfterFetch_check _ _ _ _ _ _ a b hctx ha hb]
    cases hpq : pyEqCanon a b
    · simp only [hpq, Bool.false_eq_true, if_false]
      exact ⟨_, rfl, hrr⟩
    · simp only [hpq, if_true]
      exact ⟨_, rfl, hrr⟩
  · intro hne
    rw [mainRun_eq_connected _ _ (by simp) (by simp)]
    simp only [Option.map_some', hrw]
    rw [mainConnected_eq_afterFetch _ _ _ _ _ _ hver hget,
        mainAfterFetch_value_ne _ _ _ _ _ _ hT hF hctx hne,
        mainVerify_other _ _ _ _ _ _ _ h5]
    refine ⟨by rw [hrr, hpm], ?_⟩
    exact reload_notMem_paramSetCmds_postmaster _ _
  · intro heq
    rw [mainRun_eq_connected _ _ (by simp) (by simp)]
    simp only [Option.map_none']
    rw [mainConnected_eq_afterFetch _ _ _ _ _ _ hver hget,
        mainAfterFetch_reset_noop _ _ _ _ hctx heq, hpm]

/-- C4 amended witness: a postmaster parameter exercising all three exits:
check mode with restart_required=true, execute apply with restart_required
true and no reload, and the reset no-op with restart_required=false. -/
theorem C4_amended_witness :
    (∃ r : ResultRecord,
      mainRun { name := "shared_buffers", value := some "2GB", reset := false,
                checkMode := true }
          { serverVersion := 90400,
            fetch1 := some { setting := "131072", unit := Option.none,
                             context := "postmaster", boot_val := "16384" },
            show1 := "1GB", fetch2 := Option.none, show2 := "" } =
        (Outcome.exited r,
         [Cmd.connect, Cmd.fetchSettings "shared_buffers", Cmd.showParam "shared_buffers"]) ∧
      r.restart_required = true) ∧
    (mainRun { name := "shared_buffers", value := some "2GB", reset := false,
               checkMode := false }
        { serverVersion := 90400,
          fetch1 := some { setting := "131072", unit := Option.none,
                           context := "postmaster", boot_val := "16384" },
          show1 := "1GB", fetch2 := Option.none, show2 := "" } =
      (Outcome.exited {
          name := "shared_buffers", changed := true, restart_required := true,
          prev_val_pretty := "1GB", value_pretty := some "2GB",
          value := Option.none, context := some "postmaster" },
       [Cmd.connect, Cmd.fetchSettings "shared_buffers", Cmd.showParam "shared_buffers"] ++
         paramSetCmds "shared_buffers" (PyScalar.str "2GB") "postmaster") ∧
     Cmd.reloadConf ∉ paramSetCmds "shared_buffers" (PyScalar.str "2GB") "postmaster") ∧
    (mainRun { name := "shared_buffers", value := Option.none, reset := true,
               checkMode := false }
        { serverVersion := 90400,
          fetch1 := some { setting := "131072", unit := Option.none,
                           context := "postmaster", boot_val := "131072" },
          show1 := "1GB", fetch2 := Option.none, show2 := "" } =
      (Outcome.exited {
          name := "shared_buffers", changed := false, restart_required := false,
          prev_val_pretty := "1GB", value_pretty := some "1GB",
          value := some { value := PyScalar.str "131072", unit := Option.none },
          context := some "postmaster" },
       [Cmd.connect, Cmd.fetchSettings "shared_buffers", Cmd.showParam "shared_buffers"])) := by
  refine ⟨?_, ?_, ?_⟩
  · exact (C4_amended "shared_buffers" "2GB" _
      { current_val := "1GB", raw_val := PyScalar.str "131072", unit := Option.none,
        boot_val := PyScalar.str "16384", context := "postmaster" }
      (by decide) (by decide) (by decide) (by decide) (by decide) (by decide)).1
      (CanonVal.int 2147483648) (CanonVal.int 1073741824) (by decide) (by decide)
  · exact (C4_amended "shared_buffers" "2GB" _
      { current_val := "1GB", raw_val := PyScalar.str "131072", unit := Option.none,
        boot_val := PyScalar.str "16384", context := "postmaster" }
      (by decide) (by decide) (by decide) (by decide) (by decide) (by decide)).2.1
      (by decide)
  · exact (C4_amended "shared_buffers" "2GB" _
      { current_val := "1GB", raw_val := PyScalar.str "131072", unit := Option.none,
        boot_val := PyScalar.str "131072", context := "postmaster" }
      (by decide) (by decide) (by decide) (by decide) (by decide) (by decide)).2.2
      (by decide)

/-- C1 amended: in execute mode, when the desired value string differs
textually from the current display token, the apply command is always issued;
the run result reports changed=true when the context class is postmaster
(where no verification occurs), but for the five reloadable context classes
the verification re-read overrides the flag and the result reports
changed=false when the underlying raw value is unchanged — also when the two
values are numerically equal in canonical bytes. -/
theorem C1_amended (name v : String) (w : World) (info : ParamInfo) (c : CanonVal)
    (hver : ¬ w.serverVersion < 90400)
    (hget : paramGet w.fetch1 w.show1 = Except.ok info)
    (hrw : rewriteShorthand v = v) (hT : v ≠ "True") (hF : v ≠ "False")
    (hne : v ≠ info.current_val)
    (_hcv : prettyToBytes v = Except.ok c)
    (_hcc : prettyToBytes info.current_val = Except.ok c) :
    (info.context = "postmaster" →
      mainRun { name := name, value := some v, reset := false, checkMode := false } w =
        (Outcome.exited {
            name := name, changed := true, restart_required := true,
            prev_val_pretty := info.current_val, value_pretty := some v,
            value := Option.none, context := some "postmaster" },
         [Cmd.connect, Cmd.fetchSettings name, Cmd.showParam name] ++
           paramSetCmds name (PyScalar.str v) info.context)) ∧
    (info.context ∈ ["sighup", "superuser-backend", "backend", "superuser", "user"] →
     ∀ fin : ParamInfo, paramGet w.fetch2 w.show2 = Except.ok fin →
      fin.raw_val = info.raw_val →
      ∃ r : ResultRecord,
        mainRun { name := name, value := some v, reset := false, checkMode := false } w =
          (Outcome.exited r,
           [Cmd.connect, Cmd.fetchSettings name, Cmd.showParam name] ++
             paramSetCmds name (PyScalar.str v) info.context ++
             [Cmd.connect, Cmd.fetchSettings name, Cmd.showParam name]) ∧
        r.changed = false) := by
  constructor
  · intro hpm
    have hctx : info.context ≠ "internal" := by rw [hpm]; decide
    have h5 : info.context ∉ ["sighup", "superuser-backend", "backend", "superuser", "user"] := by
      rw [hpm]; decide
    rw [mainRun_eq_connected _ _ (by simp) (by simp)]
    simp only [Option.map_some', hrw]
    rw [mainConnected_eq_afterFetch _ _ _ _ _ _ hver hget,
        mainAfterFetch_value_ne _ _ _ _ _ _ hT hF hctx hne,
        mainVerify_other _ _ _ _ _ _ _ h5]
    rw [hpm]
    rfl
  · intro h5 fin hfin hraw
    have hctx : info.context ≠ "internal" := by
      simp only [List.mem_cons, List.not_mem_nil, or_false] at h5
      rcases h5 with h | h | h | h | h <;> rw [h] <;> decide
    rw [mainRun_eq_connected _ _ (by simp) (by simp)]
    simp only [Option.map_some', hrw]
    rw [mainConnected_eq_afterFetch _ _ _ _ _ _ hver hget,
        mainAfterFetch_value_ne _ _ _ _ _ _ hT hF hctx hne,
        mainVerify_five _ _ _ _ _ _ _ fin h5 hfin]
    rw [if_pos hraw.symm]
    exact ⟨_, rfl, rfl⟩

/-- C1 amended witness: desired 1GB against current 1024MB (canonically
equal, textually different).  For a postmaster parameter the apply is issued
and changed=true is reported; for a user parameter with an unchanged
underlying value the apply is issued and changed=false is reported. -/
theorem C1_amended_witness :
    mainRun { name := "shared_buffers", value := some "1GB", reset := false,
              checkMode := false }
        { serverVersion := 90400,
          fetch1 := some { setting := "1048576", unit := some "kB",
                           context := "postmaster", boot_val := "131072" },
          show1 := "1024MB", fetch2 := Option.none, show2 := "" } =
      (Outcome.exited {
          name := "shared_buffers", changed := true, restart_required := true,
          prev_val_pretty := "1024MB", value_pretty := some "1GB",
          value := Option.none, context := some "postmaster" },
       [Cmd.connect, Cmd.fetchSettings "shared_buffers", Cmd.showParam "shared_buffers"] ++
         paramSetCmds "shared_buffers" (PyScalar.str "1GB") "postmaster") ∧
    (∃ r : ResultRecord,
      mainRun { name := "work_mem", value := some "1GB", reset := false, checkMode := false }
          { serverVersion := 90400,
            fetch1 := some { setting := "1048576", unit := some "kB", context := "user",
                             boot_val := "4096" },
            show1 := "1024MB",
            fetch2 := some { setting := "1048576", unit := some "kB", context := "user",
                             boot_val := "4096" },
            show2 := "1024MB" } =
        (Outcome.exited r,
         [Cmd.connect, Cmd.fetchSettings "work_mem", Cmd.showParam "work_mem"] ++
           paramSetCmds "work_mem" (PyScalar.str "1GB") "user" ++
           [Cmd.connect, Cmd.fetchSettings "work_mem", Cmd.showParam "work_mem"]) ∧
      r.changed = false) := by
  constructor
  · exact (C1_amended "shared_buffers" "1GB" _
      { current_val := "1024MB", raw_val := PyScalar.int 1073741824, unit := some "b",
        boot_val := PyScalar.int 134217728, context := "postmaster" }
      (CanonVal.int 1073741824)
      (by decide) (by decide) (by decide) (by decide) (by decide) (by decide)
      (by decide) (by decide)).1 rfl
  · exact (C1_amended "work_mem" "1GB" _
      { current_val := "1024MB", raw_val := PyScalar.int 1073741824, unit := some "b",
        boot_val := PyScalar.int 4194304, context := "user" }
      (CanonVal.int 1073741824)
      (by decide) (by decide) (by decide) (by decide) (by decide) (by decide)
      (by decide) (by decide)).2 (by decide)
      { current_val := "1024MB", raw_val := PyScalar.int 1073741824, unit := some "b",
        boot_val := PyScalar.int 4194304, context := "user" }
      (by decide) (by decide)

/-- C3 amended: in execute mode the verification re-read runs for the five
reloadable context classes after the apply phase — also when no apply command
was issued because the desired value equals the current display token — and
its raw-value comparison, not the apply-time literal comparison, determines
the final changed flag. -/
theorem C3_amended (name v : String) (w : World) (info fin : ParamInfo)
    (hver : ¬ w.serverVersion < 90400)
    (hget : paramGet w.fetch1 w.show1 = Except.ok info)
    (h5 : info.context ∈ ["sighup", "superuser-backend", "backend", "superuser", "user"])
    (hrw : rewriteShorthand v = v) (hT : v ≠ "True") (hF : v ≠ "False")
    (hfin : paramGet w.fetch2 w.show2 = Except.ok fin) :
    (v ≠ info.current_val →
      mainRun { name := name, value := some v, reset := false, checkMode := false } w =
        (Outcome.exited {
            name := name,
            changed := if info.raw_val = fin.raw_val then false else true,
            restart_required := false,
            prev_val_pretty := info.current_val,
            value_pretty := some fin.current_val,
            value := some { value := fin.raw_val, unit := info.unit },
            context := some info.context },
         [Cmd.connect, Cmd.fetchSettings name, Cmd.showParam name] ++
           paramSetCmds name (PyScalar.str v) info.context ++
           [Cmd.connect, Cmd.fetchSettings name, Cmd.showParam name])) ∧
    (v = info.current_val →
      mainRun { name := name, value := some v, reset := false, checkMode := false } w =
        (Outcome.exited {
            name := name,
            changed := if info.raw_val = fin.raw_val then false else true,
            restart_required := false,
            prev_val_pretty := info.current_val,
            value_pretty := some fin.current_val,
            value := some { value := fin.raw_val, unit := info.unit },
            context := some info.context },
         [Cmd.connect, Cmd.fetchSettings name, Cmd.showParam name,
          Cmd.connect, Cmd.fetchSettings name, Cmd.showParam name])) := by
  have hctx : info.context ≠ "internal" := by
    have h5c := h5
    simp only [List.mem_cons, List.not_mem_nil, or_false] at h5c
    rcases h5c with h | h | h | h | h <;> rw [h] <;> decide
  have hrr : decide (info.context = "postmaster") = false := by
    have h5c := h5
    simp only [List.mem_cons, List.not_mem_nil, or_false] at h5c
    rcases h5c with h | h | h | h | h <;> rw [h] <;> decide
  constructor
  · intro hne
    rw [mainRun_eq_connected _ _ (by simp) (by simp)]
    simp only [Option.map_some', hrw]
    rw [mainConnected_eq_afterFetch _ _ _ _ _ _ hver hget,
        mainAfterFetch_value_ne _ _ _ _ _ _ hT hF hctx hne,
        mainVerify_five _ _ _ _ _ _ _ fin h5 hfin, hrr]
  · intro hveq
    subst hveq
    rw [mainRun_eq_connected _ _ (by simp) (by simp)]
    simp only [Option.map_some', hrw]
    rw [mainConnected_eq_afterFetch _ _ _ _ _ _ hver hget,
        mainAfterFetch_value_eq _ _ _ _ hT hF hctx,
        mainVerify_five _ _ _ _ _ _ _ fin h5 hfin, hrr]
    rfl

/-- C3 amended witness: a user-context parameter re-read after an apply whose
underlying value did change (changed=true from the raw comparison), and
re-read with no apply at all when the desired value equals the current token
(changed=false, trace with a second connect and no override command). -/
theorem C3_amended_witness :
    mainRun { name := "work_mem", value := some "8MB", reset := false, checkMode := false }
        { serverVersion := 90400,
          fetch1 := some { setting := "4096", unit := some "kB", context := "user",
                           boot_val := "4096" },
          show1 := "4MB",
          fetch2 := some { setting := "8192", unit := some "kB", context := "user",
                           boot_val := "4096" },
          show2 := "8MB" } =
      (Outcome.exited {
          name := "work_mem",
          changed := if PyScalar.int 4194304 = PyScalar.int 8388608 then false else true,
          restart_required := false,
          prev_val_pretty := "4MB",
          value_pretty := some "8MB",
          value := some { value := PyScalar.int 8388608, unit := some "b" },
          context := some "user" },
       [Cmd.connect, Cmd.fetchSettings "work_mem", Cmd.showParam "work_mem"] ++
         paramSetCmds "work_mem" (PyScalar.str "8MB") "user" ++
         [Cmd.connect, Cmd.fetchSettings "work_mem", Cmd.showParam "work_mem"]) ∧
    mainRun { name := "work_mem", value := some "4MB", reset := false, checkMode := false }
        { serverVersion := 90400,
          fetch1 := some { setting := "4096", unit := some "kB", context := "user",
                           boot_val := "4096" },
          show1 := "4MB",
          fetch2 := some { setting := "4096", unit := some "kB", context := "user",
                           boot_val := "4096" },
          show2 := "4MB" } =
      (Outcome.exited {
          name := "work_mem",
          changed := if PyScalar.int 4194304 = PyScalar.int 4194304 then false else true,
          restart_required := false,
          prev_val_pretty := "4MB",
          value_pretty := some "4MB",
          value := some { value := PyScalar.int 4194304, unit := some "b" },
          context := some "user" },
       [Cmd.connect, Cmd.fetchSettings "work_mem", Cmd.showParam "work_mem",
        Cmd.connect, Cmd.fetchSettings "work_mem", Cmd.showParam "work_mem"]) := by
  constructor
  · exact (C3_amended "work_mem" "8MB" _
      { current_val := "4MB", raw_val := PyScalar.int 4194304, unit := some "b",
        boot_val := PyScalar.int 4194304, context := "user" }
      { current_val := "8MB", raw_val := PyScalar.int 8388608, unit := some "b",
        boot_val := PyScalar.int 4194304, context := "user" }
      (by decide) (by decide) (by decide) (by decide) (by decide) (by decide)
      (by decide)).1 (by decide)
  · exact (C3_amended "work_mem" "4MB" _
      { current_val := "4MB", raw_val := PyScalar.int 4194304, unit := some "b",
        boot_val := PyScalar.int 4194304, context := "user" }
      { current_val := "4MB", raw_val := PyScalar.int 4194304, unit := some "b",
        boot_val := PyScalar.int 4194304, context := "user" }
      (by decide) (by decide) (by decide) (by decide) (by decide) (by decide)
      (by decide)).2 (by decide)

/-- C9 counterexample: a catalog row with unit kB and the negative setting -1
is returned with the unit normalized to b but with raw and boot values left
as the unscaled string -1 rather than the scaled integer -1024, so the claim
that scaling applies to all values including zero and negative ones is
false. -/
theorem C9_counterexample :
    paramGet (some { setting := "-1", unit := some "kB", context := "user",
                     boot_val := "-1" }) "-1" =
      Except.ok { current_val := "-1", raw_val := PyScalar.str "-1", unit := some "b",
                  boot_val := PyScalar.str "-1", context := "user" } ∧
    PyScalar.str "-1" ≠ PyScalar.int (-1 * 1024) := by
  refine ⟨by decide, by decide⟩

/-- C9 amended: whenever the catalog unit is kB or MB, param_get returns the
byte-canonical unit b; the raw and boot values are returned scaled by 1024 or
1024 squared exactly when the catalog integer is strictly positive, and as
the unscaled catalog string when it is zero or negative. -/
theorem C9_amended (row : CatalogRow) (sv : String) (info : ParamInfo)
    (hu : row.unit = some "kB" ∨ row.unit = some "MB")
    (hget : paramGet (some row) sv = Except.ok info) :
    info.unit = some "b" ∧
    (∀ n : Int, pyIntParse row.setting = some n →
      (0 < n → info.raw_val =
        PyScalar.int (n * (if row.unit = some "kB" then 1024 else 1024 * 1024))) ∧
      (¬ 0 < n → info.raw_val = PyScalar.str row.setting)) ∧
    (∀ n : Int, pyIntParse row.boot_val = some n →
      (0 < n → info.boot_val =
        PyScalar.int (n * (if row.unit = some "kB" then 1024 else 1024 * 1024))) ∧
      (¬ 0 < n → info.boot_val = PyScalar.str row.boot_val)) := by
  simp only [paramGet] at hget
  rcases hu with hk | hm
  · rw [if_pos hk] at hget
    cases hr : pyIntParse row.setting with
    | none => rw [hr] at hget; cases hb2 : pyIntParse row.boot_val <;>
        rw [hb2] at hget <;> simp at hget
    | some rv =>
      rw [hr] at hget
      cases hb2 : pyIntParse row.boot_val with
      | none => rw [hb2] at hget; simp at hget
      | some bv =>
        rw [hb2, Except.ok.injEq] at hget
        subst hget
        refine ⟨rfl, ?_, ?_⟩
        · intro n hn
          rw [Option.some.injEq] at hn
          subst hn
          exact ⟨fun hpos => by simp [hpos, hk], fun hnpos => by simp [hnpos]⟩
        · intro n hn
          rw [Option.some.injEq] at hn
          subst hn
          exact ⟨fun hpos => by simp [hpos, hk], fun hnpos => by simp [hnpos]⟩
  · rw [if_neg (by simp [hm]), if_pos hm] at hget
    cases hr : pyIntParse row.setting with
    | none => rw [hr] at hget; cases hb2 : pyIntParse row.boot_val <;>
        rw [hb2] at hget <;> simp at hget
    | some rv =>
      rw [hr] at hget
      cases hb2 : pyIntParse row.boot_val with
      | none => rw [hb2] at hget; simp at hget
      | some bv =>
        rw [hb2, Except.ok.injEq] at hget
        subst hget
        refine ⟨rfl, ?_, ?_⟩
        · intro n hn
          rw [Option.some.injEq] at hn
          subst hn
          exact ⟨fun hpos => by simp [hpos, hm, mul_assoc], fun hnpos => by simp [hnpos]⟩
        · intro n hn
          rw [Option.some.injEq] at hn
          subst hn
          exact ⟨fun hpos => by simp [hpos, hm, mul_assoc], fun hnpos => by simp [hnpos]⟩

/-- C9 amended witness: a kB row with the positive setting 2048 scaled to the
integer 2097152 and the negative boot value -1 returned as the unscaled
string. -/
theorem C9_amended_witness :
    (PyScalar.int 2097152 : PyScalar) =
      PyScalar.int (2048 * (if (some "kB" : Option String) = some "kB" then 1024
                            else 1024 * 1024)) ∧
    (PyScalar.str "-1" : PyScalar) = PyScalar.str "-1" := by
  constructor
  · exact (((C9_amended
      { setting := "2048", unit := some "kB", context := "user", boot_val := "-1" }
      "2MB"
      { current_val := "2MB", raw_val := PyScalar.int 2097152, unit := some "b",
        boot_val := PyScalar.str "-1", context := "user" }
      (Or.inl rfl) (by decide)).2.1 2048 (by decide)).1 (by decide))
  · exact (((C9_amended
      { setting := "2048", unit := some "kB", context := "user", boot_val := "-1" }
      "2MB"
      { current_val := "2MB", raw_val := PyScalar.int 2097152, unit := some "b",
        boot_val := PyScalar.str "-1", context := "user" }
      (Or.inl rfl) (by decide)).2.2 (-1) (by decide)).2 (by decide))

/-- Suffix stage on a kB match: the result is the digit prefix scaled by
1024, also when the prefix is 0 and the falsy trailing-B fallback fires. -/
theorem sizeSuffixBytes_kB (pv : String) (n : Int) (hlen : 2 ≤ pv.toList.length)
    (hk : pyInStr "kB" (strTakeRight pv 2) = true) :
    sizeSuffixBytes pv n = some (n * 1024) := by
  unfold sizeSuffixBytes
  simp only [if_pos hlen, hk, if_true]
  by_cases hz : n = 0
  · subst hz
    by_cases hB : pyInStr "B" (strTakeRight pv 1) = true <;> simp [hB]
  · rw [if_neg]
    rintro ⟨h | h, hB⟩
    · simp at h
    · rw [Option.some.injEq, mul_eq_zero] at h
      rcases h with h | h
      · exact hz h
      · simp at h

/-- Suffix stage on an MB match after a kB miss. -/
theorem sizeSuffixBytes_MB (pv : String) (n : Int) (hlen : 2 ≤ pv.toList.length)
    (hk : pyInStr "kB" (strTakeRight pv 2) = false)
    (hm : pyInStr "MB" (strTakeRight pv 2) = true) :
    sizeSuffixBytes pv n = some (n * 1024 * 1024) := by
  unfold sizeSuffixBytes
  simp only [if_pos hlen, hk, hm, Bool.false_eq_true, if_false, if_true]
  by_cases hz : n = 0
  · subst hz
    by_cases hB : pyInStr "B" (strTakeRight pv 1) = true <;> simp [hB]
  · rw [if_neg]
    rintro ⟨h | h, hB⟩
    · simp at h
    · rw [Option.some.injEq, mul_eq_zero] at h
      rcases h with h | h
      · rw [mul_eq_zero] at h
        rcases h with h | h
        · exact hz h
        · simp at h
      · simp at h

/-- Suffix stage on a GB match after kB and MB misses. -/
theorem sizeSuffixBytes_GB (pv : String) (n : Int) (hlen : 2 ≤ pv.toList.length)
    (hk : pyInStr "kB" (strTakeRight pv 2) = false)
    (hm : pyInStr "MB" (strTakeRight pv 2) = false)
    (hg : pyInStr "GB" (strTakeRight pv 2) = true) :
    sizeSuffixBytes pv n = some (n * 1024 * 1024 * 1024) := by
  unfold sizeSuffixBytes
  simp only [if_pos hlen, hk, hm, hg, Bool.false_eq_true, if_false, if_true]
  by_cases hz : n = 0
  · subst hz
    by_cases hB : pyInStr "B" (strTakeRight pv 1) = true <;> simp [hB]
  · rw [if_neg]
    rintro ⟨h | h, hB⟩
    · simp at h
    · rw [Option.some.injEq] at h
      have : n = 0 := by
        rcases mul_eq_zero.mp h with h1 | h1
        · rcases mul_eq_zero.mp h1 with h2 | h2
          · rcases mul_eq_zero.mp h2 with h3 | h3
            · exact h3
            · simp at h3
          · simp at h2
        · simp at h1
      exact hz this

/-- Suffix stage on a TB match after kB, MB and GB misses. -/
theorem sizeSuffixBytes_TB (pv : String) (n : Int) (hlen : 2 ≤ pv.toList.length)
    (hk : pyInStr "kB" (strTakeRight pv 2) = false)
    (hm : pyInStr "MB" (strTakeRight pv 2) = false)
    (hg : pyInStr "GB" (strTakeRight pv 2) = false)
    (ht : pyInStr "TB" (strTakeRight pv 2) = true) :
    sizeSuffixBytes pv n = some (n * 1024 * 1024 * 1024 * 1024) := by
  unfold sizeSuffixBytes
  simp only [if_pos hlen, hk, hm, hg, ht, Bool.false_eq_true, if_false, if_true]
  by_cases hz : n = 0
  · subst hz
    by_cases hB : pyInStr "B" (strTakeRight pv 1) = true <;> simp [hB]
  · rw [if_neg]
    rintro ⟨h | h, hB⟩
    · simp at h
    · rw [Option.some.injEq] at h
      have : n = 0 := by
        rcases mul_eq_zero.mp h with h1 | h1
        · rcases mul_eq_zero.mp h1 with h2 | h2
          · rcases mul_eq_zero.mp h2 with h3 | h3
            · rcases mul_eq_zero.mp h3 with h4 | h4
              · exact h4
              · simp at h4
            · simp at h3
          · simp at h2
        · simp at h1
      exact hz this

/-- Suffix stage on a trailing B after all four two-letter misses: the digit
prefix is returned unscaled. -/
theorem sizeSuffixBytes_B (pv : String) (n : Int)
    (hk : pyInStr "kB" (strTakeRight pv 2) = false)
    (hm : pyInStr "MB" (strTakeRight pv 2) = false)
    (hg : pyInStr "GB" (strTakeRight pv 2) = false)
    (ht : pyInStr "TB" (strTakeRight pv 2) = false)
    (hB : pyInStr "B" (strTakeRight pv 1) = true) :
    sizeSuffixBytes pv n = some n := by
  unfold sizeSuffixBytes
  by_cases hlen : 2 ≤ pv.toList.length
  · simp [hlen, hk, hm, hg, ht, hB]
  · simp only [hlen, if_false]
    simp [hB]

/-- pretty_to_bytes on a digit-led literal with an alphabetic last character
reduces to the suffix stage. -/
theorem prettyToBytes_suffix (s : String) (h0 : s ≠ "")
    (hd : (strFirst s).isDigit = true)
    (hal : (strFirst (strTakeRight s 1)).isAlpha = true) :
    prettyToBytes s =
      (match sizeSuffixBytes s (leadingNum s) with
       | some n => Except.ok (CanonVal.int n)
       | Option.none => Except.ok (CanonVal.str s)) := by
  unfold prettyToBytes
  rw [if_neg h0, if_neg (by simp [hd]), if_neg (by simp [hal])]

/-- C8: the concrete unit round trips of the spec hold, and in general, for
every literal with a digit first character and an alphabetic last character,
a kB, MB, GB or TB match inside the final two characters scales the leading
digit run by 1024, 1024², 1024³ or 1024⁴ respectively, and a trailing B with
none of those matches returns the leading digit run unscaled (1024⁰), per
the enumeration of the spec fixed by its own concrete examples. -/
theorem C8_unit_round_trip :
    prettyToBytes "4MB" = Except.ok (CanonVal.int (4 * 1024 * 1024)) ∧
    prettyToBytes "1kB" = Except.ok (CanonVal.int 1024) ∧
    prettyToBytes "" = Except.ok (CanonVal.str "") ∧
    prettyToBytes "on" = Except.ok (CanonVal.str "on") ∧
    (∀ s : String, s ≠ "" → (strFirst s).isDigit = true →
      (strFirst (strTakeRight s 1)).isAlpha = true → 2 ≤ s.toList.length →
      (pyInStr "kB" (strTakeRight s 2) = true →
        prettyToBytes s = Except.ok (CanonVal.int (leadingNum s * 1024))) ∧
      (pyInStr "kB" (strTakeRight s 2) = false →
       pyInStr "MB" (strTakeRight s 2) = true →
        prettyToBytes s = Except.ok (CanonVal.int (leadingNum s * 1024 * 1024))) ∧
      (pyInStr "kB" (strTakeRight s 2) = false →
       pyInStr "MB" (strTakeRight s 2) = false →
       pyInStr "GB" (strTakeRight s 2) = true →
        prettyToBytes s = Except.ok (CanonVal.int (leadingNum s * 1024 * 1024 * 1024))) ∧
      (pyInStr "kB" (strTakeRight s 2) = false →
       pyInStr "MB" (strTakeRight s 2) = false →
       pyInStr "GB" (strTakeRight s 2) = false →
       pyInStr "TB" (strTakeRight s 2) = true →
        prettyToBytes s =
          Except.ok (CanonVal.int (leadingNum s * 1024 * 1024 * 1024 * 1024))) ∧
      (pyInStr "kB" (strTakeRight s 2) = false →
       pyInStr "MB" (strTakeRight s 2) = false →
       pyInStr "GB" (strTakeRight s 2) = false →
       pyInStr "TB" (strTakeRight s 2) = false →
       pyInStr "B" (strTakeRight s 1) = true →
        prettyToBytes s = Except.ok (CanonVal.int (leadingNum s)))) := by
  refine ⟨by decide, by decide, by decide, by decide, ?_⟩
  intro s h0 hd hal hlen
  refine ⟨?_, ?_, ?_, ?_, ?_⟩
  · intro hk
    rw [prettyToBytes_suffix s h0 hd hal, sizeSuffixBytes_kB s _ hlen hk]
  · intro hk hm
    rw [prettyToBytes_suffix s h0 hd hal, sizeSuffixBytes_MB s _ hlen hk hm]
  · intro hk hm hg
    rw [prettyToBytes_suffix s h0 hd hal, sizeSuffixBytes_GB s _ hlen hk hm hg]
  · intro hk hm hg ht
    rw [prettyToBytes_suffix s h0 hd hal, sizeSuffixBytes_TB s _ hlen hk hm hg ht]
  · intro hk hm hg ht hB
    rw [prettyToBytes_suffix s h0 hd hal, sizeSuffixBytes_B s _ hk hm hg ht hB]

/-- C8 witness: the general suffix clauses applied at the literals 10kB, 3MB,
2GB, 5TB and 7B. -/
theorem C8_unit_round_trip_witness :
    prettyToBytes "10kB" = Except.ok (CanonVal.int (leadingNum "10kB" * 1024)) ∧
    prettyToBytes "3MB" = Except.ok (CanonVal.int (leadingNum "3MB" * 1024 * 1024)) ∧
    prettyToBytes "2GB" = Except.ok (CanonVal.int (leadingNum "2GB" * 1024 * 1024 * 1024)) ∧
    prettyToBytes "5TB" =
      Except.ok (CanonVal.int (leadingNum "5TB" * 1024 * 1024 * 1024 * 1024)) ∧
    prettyToBytes "7B" = Except.ok (CanonVal.int (leadingNum "7B")) := by
  refine ⟨?_, ?_, ?_, ?_, ?_⟩
  · exact (C8_unit_round_trip.2.2.2.2 "10kB" (by decide) (by decide) (by decide)
      (by decide)).1 (by decide)
  · exact ((C8_unit_round_trip.2.2.2.2 "3MB" (by decide) (by decide) (by decide)
      (by decide)).2.1 (by decide) (by decide))
  · exact ((C8_unit_round_trip.2.2.2.2 "2GB" (by decide) (by decide) (by decide)
      (by decide)).2.2.1 (by decide) (by decide) (by decide))
  · exact ((C8_unit_round_trip.2.2.2.2 "5TB" (by decide) (by decide) (by decide)
      (by decide)).2.2.2.1 (by decide) (by decide) (by decide) (by decide))
  · exact ((C8_unit_round_trip.2.2.2.2 "7B" (by decide) (by decide) (by decide)
      (by decide)).2.2.2.2 (by decide) (by decide) (by decide) (by decide) (by decide))

/-- C10: the top-level entry point can let a Python exception escape: in
preview mode with the desired value 1x2 (first character a digit, last
character not alphabetic), pretty_to_bytes falls back from int() to float(),
both raise ValueError, and the run crashes instead of signalling a typed
error or returning the literal unchanged, contradicting the claim and the
function comment in the source. -/
theorem C10_crash_on_unparsable :
    prettyToBytes "1x2" = Except.error () ∧
    mainRun { name := "application_name", value := some "1x2", reset := false,
              checkMode := true }
        { serverVersion := 90400,
          fetch1 := some { setting := "psql", unit := Option.none, context := "user",
                           boot_val := "" },
          show1 := "psql", fetch2 := Option.none, show2 := "" } =
      (Outcome.crashed,
       [Cmd.connect, Cmd.fetchSettings "application_name", Cmd.showParam "application_name"]) := by
  refine ⟨by decide, by decide⟩

end PGSet
